import Mathlib

/-!
Shallow embedding of the article-generation web application: JavaScript
string primitives, the output parser, the prompt builder, the article and
user models with their save hooks, the topic aggregator, the image
deduplicator, and the WordPress publisher helpers, together with theorems
settling the specification claims.

Strings are modelled as lists of characters (`Str`), so that the JavaScript
operations `split`, `trim`, `replace` and regex word-splitting can be
defined by structural recursion and reasoned about by induction.
-/

/-- Strings of the modelled program, as lists of characters. -/
abbrev Str := List Char

/-- Characters matched by the JavaScript whitespace class used by
`split(/\s+/)` and `trim()` (space, tab, newline, carriage return,
vertical tab, form feed). -/
def jsWs (c : Char) : Bool :=
  c = ' ' ∨ c = '\t' ∨ c = '\n' ∨ c = '\r' ∨ c = '\x0b' ∨ c = '\x0c'

/-- JavaScript `s.split('\n')`: split on single newline characters,
keeping empty segments (the empty string splits to one empty segment). -/
def splitNl : Str → List Str
  | [] => [[]]
  | c :: cs =>
    if c = '\n' then [] :: splitNl cs
    else
      match splitNl cs with
      | t :: ts => (c :: t) :: ts
      | [] => [[c]]

/-- JavaScript `s.split('\n\n')`: split on the two-character separator,
scanning left to right (so `"a\n\n\nb"` splits as `["a", "\nb"]`). -/
def splitNN : Str → List Str
  | '\n' :: '\n' :: rest => [] :: splitNN rest
  | c :: cs =>
    match splitNN cs with
    | t :: ts => (c :: t) :: ts
    | [] => [[c]]
  | [] => [[]]

/-- JavaScript `s.split(/\s+/)`: split on maximal runs of whitespace.
A leading or trailing run contributes an empty token, and the empty
string yields the single empty token, exactly as in JavaScript. -/
def splitWs : Str → List Str
  | [] => [[]]
  | c :: cs =>
    if jsWs c then
      match cs with
      | c2 :: _ => if jsWs c2 then splitWs cs else [] :: splitWs cs
      | [] => [] :: splitWs cs
    else
      match splitWs cs with
      | t :: ts => (c :: t) :: ts
      | [] => [[c]]

/-- JavaScript `s.trim()`: drop whitespace from both ends. -/
def jsTrim (s : Str) : Str :=
  ((s.dropWhile jsWs).reverse.dropWhile jsWs).reverse

/-- Test whether `p` is an initial segment of `s`
(JavaScript `s.startsWith(p)`). -/
def startsWith : Str → Str → Bool
  | _, [] => true
  | [], _ :: _ => false
  | c :: cs, p :: ps => p = c && startsWith cs ps

/-- JavaScript `s.replace(pat, '')` for a non-empty literal pattern:
remove the first occurrence of `pat` from `s`, if any. -/
def replaceFirst (pat : Str) : Str → Str
  | [] => []
  | c :: cs =>
    if startsWith (c :: cs) pat then (c :: cs).drop pat.length
    else c :: replaceFirst pat cs

/-- Canonical word count of the source: `content.split(/\s+/).length`. -/
def countWordsJS (s : Str) : Nat := (splitWs s).length

/-- Result of the output parser: a title and a content body. -/
structure ParsedContent where
  title : Str
  content : Str
deriving DecidableEq, Repr

/-- The literal marker `TITLE:` scanned for by the output parser. -/
def titleMarker : Str := ['T', 'I', 'T', 'L', 'E', ':']

/-- The literal marker `CONTENT:` scanned for by the output parser. -/
def contentMarker : Str := ['C', 'O', 'N', 'T', 'E', 'N', 'T', ':']

/-- Line loop of `parseGeneratedContent`: fold over the lines carrying the
title, the content buffer, and the flag recording whether a `CONTENT:`
marker line has been seen. -/
def parseLoop : List Str → Str → Str → Bool → Str × Str
  | [], t, a, _ => (t, a)
  | l :: ls, t, a, inC =>
    if startsWith l titleMarker then
      parseLoop ls (jsTrim (replaceFirst titleMarker l)) a inC
    else if startsWith l contentMarker then
      parseLoop ls t a true
    else if inC then
      parseLoop ls t (a ++ l ++ ['\n']) inC
    else
      parseLoop ls t a inC

/-- The output parser `parseGeneratedContent` of the article routes: scan
lines for `TITLE:` and `CONTENT:` markers; when neither a title nor any
content was produced, fall back to splitting on the first blank line;
finally default the title to `"Generated Article"` and trim the content,
substituting the whole raw text when the trim is empty. -/
def parseGeneratedContent (content : Str) : ParsedContent :=
  let r := parseLoop (splitNl content) [] [] false
  let t := r.1
  let a := r.2
  let tb :=
    if t = [] ∧ a = [] then
      let parts := splitNN content
      let t' := if parts.headI ≠ [] then parts.headI else "Generated Article".data
      let rest := List.intercalate ('\n' :: '\n' :: []) (parts.drop 1)
      let a' := if rest ≠ [] then rest else content
      (t', a')
    else (t, a)
  { title := if tb.1 ≠ [] then tb.1 else "Generated Article".data
    content := if jsTrim tb.2 ≠ [] then jsTrim tb.2 else content }

/-- JavaScript truthiness of an optional string value: present and
non-empty. -/
def jsPresent (o : Option Str) : Bool :=
  match o with
  | some s => !s.isEmpty
  | none => false

/-- JavaScript `x || d` for an optional string `x`: the value when truthy
(present and non-empty), otherwise the default. -/
def jsOrStr (o : Option Str) (d : Str) : Str :=
  match o with
  | some s => if s.isEmpty then d else s
  | none => d

/-- JavaScript `x || d` for an optional number `x`: the value when truthy
(present and non-zero), otherwise the default. -/
def jsOrNat (o : Option Nat) (d : Nat) : Nat :=
  match o with
  | some n => if n = 0 then d else n
  | none => d

/-- Writing-style record of the Article schema and the prompt builder.
Values are the rendered text of the JavaScript field values; `none` covers
the absent, false and empty cases, which are all falsy. The JavaScript
field named like the Lean keyword for record declarations is called
`struct` here. -/
structure WritingStyle where
  voice : Option Str := none
  complexity : Option Str := none
  struct : Option Str := none
  examples : Option Str := none
  quotes : Option Str := none
  callToAction : Option Str := none
  customInstructions : Option Str := none
deriving DecidableEq, Repr

/-- JavaScript `x || d` for an optional object `x`: any object is truthy,
so the default applies only when the value is absent. -/
def jsOrStyle (o : Option WritingStyle) (d : WritingStyle) : WritingStyle :=
  o.getD d

/-- Fixed output-format instruction appended at the end of every prompt. -/
def promptFormatInstr : Str :=
  ("\n\nFormat the response as follows:\nTITLE: [Your article title here]"
    ++ "\n\nCONTENT:\n[Your article content here]"
    ++ "\n\nMake sure the content is engaging, informative, and well-structured"
    ++ " with proper paragraphs, headings, and bullet points where appropriate.").data

/-- The prompt builder `buildArticlePrompt` of the article routes,
translated clause by clause: base instruction, optional tone clause,
writing-style block with one line per truthy field, optional custom
instructions, fixed format instruction. -/
def buildArticlePrompt (topic niche : Str) (writingStyle : Option WritingStyle)
    (wordCount : Nat) (tone : Str) (customPrompt : Str) : Str :=
  let p0 := "Write a ".data ++ Nat.toDigits 10 wordCount ++ "-word article about \"".data
    ++ topic ++ "\" in the ".data ++ niche ++ " niche.".data
  let p1 := if tone ≠ [] then
      p0 ++ "\n\nTone: Write in a ".data ++ tone ++ " tone.".data
    else p0
  let p2 :=
    match writingStyle with
    | none => p1
    | some ws =>
      let q0 := p1 ++ "\n\nWriting Style:".data
      let q1 := if jsPresent ws.voice then
          q0 ++ "\n- Voice: ".data ++ ws.voice.getD [] else q0
      let q2 := if jsPresent ws.complexity then
          q1 ++ "\n- Complexity: ".data ++ ws.complexity.getD [] else q1
      let q3 := if jsPresent ws.struct then
          q2 ++ "\n- Structure: ".data ++ ws.struct.getD [] else q2
      let q4 := if jsPresent ws.examples then
          q3 ++ "\n- Include examples: ".data ++ ws.examples.getD [] else q3
      let q5 := if jsPresent ws.quotes then
          q4 ++ "\n- Include quotes: ".data ++ ws.quotes.getD [] else q4
      let q6 := if jsPresent ws.callToAction then
          q5 ++ "\n- Call to action: ".data ++ ws.callToAction.getD [] else q5
      q6
  let p3 := if customPrompt ≠ [] then
      p2 ++ "\n\nAdditional Instructions: ".data ++ customPrompt
    else p2
  p3 ++ promptFormatInstr

/-- One image attached to an Article, per the Article schema. -/
structure ArticleImage where
  url : Str
  alt : Str
  caption : Str
  position : Nat
  source : Str
  photographer : Str
  photographerUrl : Str
deriving DecidableEq, Repr

/-- Remote blog-post identity recorded on an Article after publishing. -/
structure BlogPostInfo where
  postId : Str
  postUrl : Str
  publishedAt : Nat
  status : Str
deriving DecidableEq, Repr

/-- Analytics counters of an Article. -/
structure Analytics where
  views : Nat := 0
  likes : Nat := 0
  shares : Nat := 0
  comments : Nat := 0
deriving DecidableEq, Repr

/-- Persisted Article document, per the Article schema. Timestamps are
abstract instants modelled as natural numbers. -/
structure Article where
  id : Nat
  userId : Nat
  title : Str
  content : Str
  topic : Str
  niche : Str
  writingStyle : WritingStyle
  wordCount : Nat
  tone : Str
  status : Str
  images : List ArticleImage
  blogPost : Option BlogPostInfo
  analytics : Analytics
  generatedAt : Nat
  regeneratedAt : Option Nat
  createdAt : Nat
  updatedAt : Nat
deriving DecidableEq, Repr

/-- Pre-save middleware of the Article schema: when the content path was
modified by the pending write, recompute the word count from the content
with the canonical word-count algorithm. -/
def preSaveArticle (a : Article) (contentModified : Bool) : Article :=
  if contentModified then { a with wordCount := countWordsJS a.content } else a

/-- Title, content and word count produced by the generation helper
`generateArticle`, as a function of the raw text returned by the
generative provider: parse the raw text, then count the words of the
parsed content. -/
structure GenResult where
  title : Str
  content : Str
  wordCount : Nat
deriving DecidableEq, Repr

/-- The deterministic tail of the `generateArticle` helper: parse the raw
provider output into title and content and count the actual words. -/
def generateArticleResult (raw : Str) : GenResult :=
  let p := parseGeneratedContent raw
  { title := p.title, content := p.content, wordCount := countWordsJS p.content }

/-- Body of a regenerate request: each field falls back to the original
Article's stored value when not supplied (JavaScript `x || orig.x`). -/
structure RegenRequest where
  writingStyle : Option WritingStyle := none
  wordCount : Option Nat := none
  tone : Option Str := none
  customPrompt : Str := []
deriving Repr

/-- The regenerate route on an owned existing Article, success path:
generate a new title/content/word count from the raw provider output,
overwrite title, content, writingStyle, wordCount, tone, updatedAt and
regeneratedAt in place, then save (running the Article pre-save hook with
the content path modified exactly when the content value changed). -/
def regenerateArticle (orig : Article) (req : RegenRequest) (raw : Str)
    (now : Nat) : Article :=
  let gen := generateArticleResult raw
  let a := { orig with
    title := gen.title
    content := gen.content
    writingStyle := jsOrStyle req.writingStyle orig.writingStyle
    wordCount := gen.wordCount
    tone := jsOrStr req.tone orig.tone
    updatedAt := now
    regeneratedAt := some now }
  preSaveArticle a (decide (gen.content ≠ orig.content))

/-- Body of an article update request; `none` models an absent field. -/
structure UpdateRequest where
  title : Option Str := none
  content : Option Str := none
  status : Option Str := none
deriving Repr

/-- The update route on an owned existing Article, success path: assign
each of title, content and status only when the supplied value is truthy
(present and non-empty), refresh updatedAt, then save (running the
Article pre-save hook with the content path modified exactly when the
content value changed). -/
def updateArticle (orig : Article) (req : UpdateRequest) (now : Nat) : Article :=
  let a := { orig with
    title := if jsPresent req.title then req.title.getD [] else orig.title
    content := if jsPresent req.content then req.content.getD [] else orig.content
    status := if jsPresent req.status then req.status.getD [] else orig.status
    updatedAt := now }
  preSaveArticle a (decide (a.content ≠ orig.content))

/-- User document restricted to the password path and its modified flag,
as tracked by the document layer for the pre-save hook. -/
structure UserDoc where
  password : Str
  passwordModified : Bool
deriving DecidableEq, Repr

/-- Pre-save middleware of the User schema: hash the password exactly when
the password path was modified. The bcrypt hash (with a fresh salt folded
in) is an abstract function parameter. -/
def preSaveUser (bhash : Str → Str) (u : UserDoc) : UserDoc :=
  if u.passwordModified then
    { password := bhash u.password, passwordModified := false }
  else u

/-- The register route, password handling: construct the new User with the
submitted plaintext password (marking the path modified), overwrite it
with the bcrypt hash of the plaintext, then save, which runs the User
pre-save hook. -/
def registerUser (bhash : Str → Str) (plain : Str) : UserDoc :=
  let u0 : UserDoc := { password := plain, passwordModified := true }
  let u1 : UserDoc := { u0 with password := bhash plain }
  preSaveUser bhash u1

/-- One topic item returned by a topic provider or the aggregator. The
optional fields are the provider-specific extras of the source objects. -/
structure Topic where
  title : Str
  description : Str
  source : Str
  relevance : ℚ
  url : Option Str := none
  searchVolume : Option Str := none
  subreddit : Option Str := none
  hashtag : Option Str := none
  keyword : Option Str := none
  publishedAt : Option Str := none
deriving DecidableEq, Repr

/-- Build a topic carrying only the four fields every provider sets. -/
def mkTopic (t d s : Str) (r : ℚ) : Topic :=
  { title := t, description := d, source := s, relevance := r }

/-- Deduplication kernel shared by `removeDuplicates` and
`removeDuplicateImages`: walk the list with the set of already-seen keys
(as in the source, a key is added to the set whether or not it was
already present), keeping an item exactly when its key was not seen. -/
def dedupeBy {α : Type} (key : α → Str) : List Str → List α → List α
  | _, [] => []
  | seen, t :: ts =>
    if key t ∈ seen then dedupeBy key (key t :: seen) ts
    else t :: dedupeBy key (key t :: seen) ts

/-- The `removeDuplicates` helper of the topics routes: drop topics whose
exact title was already seen, keeping the first occurrence. -/
def removeDuplicates (topics : List Topic) : List Topic :=
  dedupeBy (fun t => t.title) [] topics

/-- Static fallback topics of the topics routes, keyed by niche, with a
single generic item for niches without a curated entry. -/
def getFallbackTopics (niche : Str) : List Topic :=
  if niche = "technology".data then
    [mkTopic "Latest AI Developments".data
      "Recent advances in artificial intelligence".data "Fallback".data (8/10),
     mkTopic "Cybersecurity Trends".data
      "Current cybersecurity challenges and solutions".data "Fallback".data (7/10)]
  else if niche = "health".data then
    [mkTopic "Mental Health Awareness".data
      "Importance of mental health in modern life".data "Fallback".data (8/10),
     mkTopic "Nutrition Tips".data
      "Healthy eating habits and nutrition advice".data "Fallback".data (7/10)]
  else if niche = "business".data then
    [mkTopic "Remote Work Trends".data
      "The future of remote work and productivity".data "Fallback".data (8/10),
     mkTopic "Digital Marketing Strategies".data
      "Effective digital marketing approaches".data "Fallback".data (7/10)]
  else
    [mkTopic (niche ++ " insights".data) ("Latest trends in ".data ++ niche)
      "Fallback".data (6/10)]

/-- Outcome of awaiting one provider inside the aggregator: either a list
of topics, or a rejected promise propagating into the surrounding try
block. In the source every provider catches its own errors and resolves
with an empty list, so the error case is never produced by the shipped
providers; it is kept here because the aggregator handles it. -/
abbrev ProviderResult := Except Unit (List Topic)

/-- The `getTrendingTopics` aggregator: push the results of the
configured providers in priority order (Google Trends and News only when
their keys are configured, then Reddit, then Twitter); if any awaited
provider call rejects, the catch block returns the static fallback for
the niche; otherwise deduplicate by title and return the first 20. -/
def getTrendingTopics (googleConfigured newsConfigured : Bool)
    (google news reddit twitter : ProviderResult) (niche : Str) : List Topic :=
  let merged : ProviderResult := do
    let t1 ← if googleConfigured then google else .ok []
    let t2 ← if newsConfigured then news else .ok []
    let t3 ← reddit
    let t4 ← twitter
    .ok (t1 ++ t2 ++ t3 ++ t4)
  match merged with
  | .ok ts => (removeDuplicates ts).take 20
  | .error _ => getFallbackTopics niche

/-- The `searchTopics` aggregator: push the news results when the key is
configured, then the Reddit results; if any awaited call rejects, the
catch block returns the empty list; otherwise deduplicate by title and
return the first `limit`. -/
def searchTopics (newsConfigured : Bool) (news reddit : ProviderResult)
    (limit : Nat) : List Topic :=
  let merged : ProviderResult := do
    let t1 ← if newsConfigured then news else .ok []
    let t2 ← reddit
    .ok (t1 ++ t2)
  match merged with
  | .ok ts => (removeDuplicates ts).take limit
  | .error _ => []

/-- One image record returned by an image provider or the aggregator. -/
structure ImageRec where
  id : Str
  url : Str
  thumbUrl : Str
  downloadUrl : Str
  alt : Str
  photographer : Str
  photographerUrl : Str
  width : Nat
  height : Nat
  source : Str
  license : Str
deriving DecidableEq, Repr

/-- The `removeDuplicateImages` helper of the images routes: drop images
whose url was already seen, keeping the first occurrence. -/
def removeDuplicateImages (images : List ImageRec) : List ImageRec :=
  dedupeBy (fun i => i.url) [] images

/-- A failed remote HTTP call, carrying the response status when the
failure produced a response at all (JavaScript `error.response?.status`). -/
structure HttpFailure where
  status : Option Nat
deriving DecidableEq, Repr

/-- Result shape of the WordPress helper functions: a success flag, with
a fixed error message on failure. -/
structure WpResult where
  success : Bool
  error : Option Str
deriving DecidableEq, Repr

/-- The `testWordPressConnection` helper: on a failed probe of the
current-user endpoint, classify the failure by HTTP status into one of
three fixed messages (401, 404, anything else). -/
def testWordPressConnection (outcome : Except HttpFailure Unit) : WpResult :=
  match outcome with
  | .ok _ => { success := true, error := none }
  | .error e =>
    if e.status = some 401 then
      { success := false,
        error := some ("Invalid credentials. Please check your username"
          ++ " and password.").data }
    else if e.status = some 404 then
      { success := false,
        error := some ("WordPress REST API not found. Please ensure your"
          ++ " site has REST API enabled.").data }
    else
      { success := false,
        error := some ("Failed to connect to WordPress site. Please check"
          ++ " your site URL and credentials.").data }

/-- The `updateWordPressPost` helper: any remote failure is caught and
reported with one fixed message, regardless of status. -/
def updateWordPressPost (outcome : Except HttpFailure Unit) : WpResult :=
  match outcome with
  | .ok _ => { success := true, error := none }
  | .error _ =>
    { success := false, error := some "Failed to update WordPress post".data }

/-- The `deleteWordPressPost` helper: any remote failure is caught and
reported with one fixed message, regardless of status. -/
def deleteWordPressPost (outcome : Except HttpFailure Unit) : WpResult :=
  match outcome with
  | .ok _ => { success := true, error := none }
  | .error _ =>
    { success := false, error := some "Failed to delete WordPress post".data }

/-- The `getWordPressPosts` helper backing the list-posts route: any
remote failure is rethrown as one fixed message, regardless of status. -/
def getWordPressPosts (outcome : Except HttpFailure Unit) : Except Str Unit :=
  match outcome with
  | .ok _ => .ok ()
  | .error _ => .error "Failed to fetch posts from WordPress".data

/-- Spec-shaped first prompt part: the base instruction naming word count,
topic and niche. -/
def promptBasePart (topic niche : Str) (wordCount : Nat) : Str :=
  "Write a ".data ++ Nat.toDigits 10 wordCount ++ "-word article about \"".data
    ++ topic ++ "\" in the ".data ++ niche ++ " niche.".data

/-- Spec-shaped second prompt part: the tone clause, present exactly when
the tone is non-empty. -/
def promptToneClause (tone : Str) : Str :=
  if tone ≠ [] then "\n\nTone: Write in a ".data ++ tone ++ " tone.".data else []

/-- One line of the writing-style block, emitted exactly when the field is
truthy and omitted (not emitted as empty) otherwise. -/
def promptStyleLine (lbl : Str) (v : Option Str) : Str :=
  if jsPresent v then lbl ++ v.getD [] else []

/-- Spec-shaped third prompt part: the writing-style block, one line per
present field in the fixed order voice, complexity, structure, examples,
quotes, call to action. -/
def promptStyleBlock (writingStyle : Option WritingStyle) : Str :=
  match writingStyle with
  | none => []
  | some ws =>
    "\n\nWriting Style:".data
      ++ promptStyleLine "\n- Voice: ".data ws.voice
      ++ promptStyleLine "\n- Complexity: ".data ws.complexity
      ++ promptStyleLine "\n- Structure: ".data ws.struct
      ++ promptStyleLine "\n- Include examples: ".data ws.examples
      ++ promptStyleLine "\n- Include quotes: ".data ws.quotes
      ++ promptStyleLine "\n- Call to action: ".data ws.callToAction

/-- Spec-shaped fourth prompt part: the custom-instructions clause,
present exactly when the custom prompt is non-empty. -/
def promptCustomClause (customPrompt : Str) : Str :=
  if customPrompt ≠ [] then
    "\n\nAdditional Instructions: ".data ++ customPrompt
  else []

/-- Appending two pieces inside a conditional equals appending the
conditional clause, with the empty string in the omitted branch. -/
theorem ite_append_two (c : Prop) [Decidable c] (X l v : Str) :
    (if c then X ++ l ++ v else X) = X ++ (if c then l ++ v else []) := by
  split <;> simp only [List.append_assoc, List.append_nil]

/-- Appending three pieces inside a conditional equals appending the
conditional clause, with the empty string in the omitted branch. -/
theorem ite_append_three (c : Prop) [Decidable c] (X l v m : Str) :
    (if c then X ++ l ++ v ++ m else X) = X ++ (if c then l ++ v ++ m else []) := by
  split <;> simp only [List.append_assoc, List.append_nil]

/-- Claim C8: the prompt builder is a pure function whose output is always
the concatenation, in fixed order, of the base instruction, the tone
clause when the tone is present, the writing-style block with exactly one
line per present style field in the order voice, complexity, structure,
examples, quotes, callToAction (absent fields omitted, not emitted as
empty), the custom-instructions clause when non-empty, and the fixed
TITLE:/CONTENT: output-format instruction. -/
theorem buildArticlePrompt_five_parts (topic niche : Str)
    (writingStyle : Option WritingStyle) (wordCount : Nat)
    (tone : Str) (customPrompt : Str) :
    buildArticlePrompt topic niche writingStyle wordCount tone customPrompt =
      promptBasePart topic niche wordCount ++ promptToneClause tone
        ++ promptStyleBlock writingStyle ++ promptCustomClause customPrompt
        ++ promptFormatInstr := by
  cases writingStyle with
  | none =>
    simp only [buildArticlePrompt, promptBasePart, promptToneClause,
      promptStyleBlock, promptCustomClause, ite_append_two, ite_append_three]
    simp only [List.append_assoc, List.append_nil, List.nil_append]
  | some ws =>
    simp only [buildArticlePrompt, promptBasePart, promptToneClause,
      promptStyleBlock, promptStyleLine, promptCustomClause, ite_append_two,
      ite_append_three]
    simp only [List.append_assoc, List.append_nil, List.nil_append]

/-- Claim C9: the password stored by registration is the bcrypt hash of a
bcrypt hash of the submitted password: the route hashes the plaintext
before save, and because the assignment leaves the password path marked
modified, the User pre-save hook hashes the already-hashed value again,
so the stored value is not the hash of the submitted password (whenever
the double hash differs from the single hash, as it does for bcrypt). -/
theorem registerUser_double_hash (bhash : Str → Str) (plain : Str) :
    (registerUser bhash plain).password = bhash (bhash plain) ∧
    (bhash (bhash plain) ≠ bhash plain →
      (registerUser bhash plain).password ≠ bhash plain) := by
  refine ⟨rfl, ?_⟩
  intro h
  simpa [registerUser, preSaveUser] using h

/-- Witness for claim C9 at a concrete hash function and password. -/
theorem registerUser_double_hash_witness :
    (registerUser (fun s => 'h' :: s) ['p', 'w']).password ≠
      (fun s : Str => 'h' :: s) ['p', 'w'] :=
  (registerUser_double_hash (fun s => 'h' :: s) ['p', 'w']).2 (by decide)

/-- Counterexample for claim C5: a 401 failure of the remote update call
is reported with the fixed update-failure message, not with the
invalid-credentials message that `testWordPressConnection` would use, and
a 404 failure of the list-posts call is rethrown with the fixed
fetch-failure message, not the REST-API-unavailable message. -/
theorem updateWordPressPost_401_not_classified :
    (updateWordPressPost (.error { status := some 401 })).error =
      some "Failed to update WordPress post".data ∧
    (updateWordPressPost (.error { status := some 401 })).error ≠
      some ("Invalid credentials. Please check your username"
        ++ " and password.").data ∧
    getWordPressPosts (.error { status := some 404 }) =
      .error "Failed to fetch posts from WordPress".data ∧
    (getWordPressPosts (.error { status := some 404 })) ≠
      .error ("WordPress REST API not found. Please ensure your"
        ++ " site has REST API enabled.").data := by
  refine ⟨rfl, by decide, rfl, ?_⟩
  intro h
  exact absurd (Except.error.inj h) (by decide)

/-- Claim C5 as amended: only `testWordPressConnection` classifies remote
failures three ways by status (401 to the invalid-credentials message,
404 to the REST-API-unavailable message, anything else to the generic
connection-failure message); `updateWordPressPost`, `deleteWordPressPost`
and `getWordPressPosts` each translate every remote failure, regardless
of status, into a single fixed operation-specific message. -/
theorem wordpress_error_messages (e : HttpFailure) :
    (testWordPressConnection (.error e)).error =
      some (if e.status = some 401 then
          ("Invalid credentials. Please check your username"
            ++ " and password.").data
        else if e.status = some 404 then
          ("WordPress REST API not found. Please ensure your"
            ++ " site has REST API enabled.").data
        else
          ("Failed to connect to WordPress site. Please check"
            ++ " your site URL and credentials.").data) ∧
    (updateWordPressPost (.error e)).error =
      some "Failed to update WordPress post".data ∧
    (deleteWordPressPost (.error e)).error =
      some "Failed to delete WordPress post".data ∧
    getWordPressPosts (.error e) =
      .error "Failed to fetch posts from WordPress".data := by
  refine ⟨?_, rfl, rfl, rfl⟩
  simp only [testWordPressConnection]
  split_ifs <;> rfl

/-- Counterexample for claim C2: with no optional provider keys
configured and both always-on providers resolving with empty lists (which
is exactly how their internal catch blocks surface a provider failure),
the trending aggregation returns the empty list, not the non-empty static
fallback for the niche. -/
theorem getTrendingTopics_total_failure_empty :
    getTrendingTopics false false (.ok []) (.ok []) (.ok []) (.ok [])
      "technology".data = [] ∧
    getFallbackTopics "technology".data ≠ [] ∧
    getTrendingTopics false false (.ok []) (.ok []) (.ok []) (.ok [])
      "technology".data ≠ getFallbackTopics "technology".data := by
  refine ⟨rfl, by decide, by decide⟩

/-- Claim C2 as amended: because every provider catches its own failures
and resolves with an empty list, a total provider failure reaches the
aggregator as empty results, and the trending aggregation then returns
the empty list, not the fallback; the static non-empty fallback is
returned only when a rejected promise propagates into the aggregator
itself. The search aggregation returns an empty sequence under total
failure, as claimed. -/
theorem trending_fallback_only_on_exception (gC nC : Bool)
    (g n t : ProviderResult) (niche : Str) (limit : Nat) :
    getTrendingTopics gC nC (.ok []) (.ok []) (.ok []) (.ok []) niche = [] ∧
    searchTopics nC (.ok []) (.ok []) limit = [] ∧
    getTrendingTopics gC nC g n (.error ()) t niche = getFallbackTopics niche ∧
    getFallbackTopics niche ≠ [] := by
  refine ⟨?_, ?_, ?_, ?_⟩
  · cases gC <;> cases nC <;> rfl
  · cases nC <;> exact List.take_nil
  · cases gC <;> cases nC <;> cases g <;> cases n <;> rfl
  · unfold getFallbackTopics
    split_ifs <;> simp

/-- The Article pre-save hook either recomputes the word count from the
content or leaves the document unchanged; every other field is untouched
in both cases. -/
theorem preSaveArticle_eq (a : Article) (b : Bool) :
    preSaveArticle a b =
      { a with wordCount := if b then countWordsJS a.content else a.wordCount } := by
  cases b <;> simp [preSaveArticle]

/-- Claim C3: a successful regenerate leaves the Article's id, userId,
createdAt, topic, niche, status, generatedAt, images, blogPost and
analytics unchanged, and replaces only title, content, wordCount, tone,
writingStyle, updatedAt and regeneratedAt, taking the new title, content
and word count from the freshly generated output and falling back to the
original tone and style when the request omits them. -/
theorem regenerateArticle_frame (orig : Article) (req : RegenRequest)
    (raw : Str) (now : Nat) :
    (regenerateArticle orig req raw now).id = orig.id ∧
    (regenerateArticle orig req raw now).userId = orig.userId ∧
    (regenerateArticle orig req raw now).createdAt = orig.createdAt ∧
    (regenerateArticle orig req raw now).topic = orig.topic ∧
    (regenerateArticle orig req raw now).niche = orig.niche ∧
    (regenerateArticle orig req raw now).status = orig.status ∧
    (regenerateArticle orig req raw now).generatedAt = orig.generatedAt ∧
    (regenerateArticle orig req raw now).images = orig.images ∧
    (regenerateArticle orig req raw now).blogPost = orig.blogPost ∧
    (regenerateArticle orig req raw now).analytics = orig.analytics ∧
    (regenerateArticle orig req raw now).title = (generateArticleResult raw).title ∧
    (regenerateArticle orig req raw now).content = (generateArticleResult raw).content ∧
    (regenerateArticle orig req raw now).wordCount =
      countWordsJS (generateArticleResult raw).content ∧
    (regenerateArticle orig req raw now).tone = jsOrStr req.tone orig.tone ∧
    (regenerateArticle orig req raw now).writingStyle =
      jsOrStyle req.writingStyle orig.writingStyle ∧
    (regenerateArticle orig req raw now).updatedAt = now ∧
    (regenerateArticle orig req raw now).regeneratedAt = some now := by
  simp only [regenerateArticle, preSaveArticle_eq, generateArticleResult]
  refine ⟨?_, ?_, ?_, ?_, ?_, ?_, ?_, ?_, ?_, ?_, ?_, ?_, ?_, ?_, ?_, ?_, ?_⟩ <;>
    first
    | trivial
    | (split <;> rfl)

/-- Claim C10: the update route applies a supplied title, content or
status only when the value is truthy, so an empty string (like an absent
field) leaves the stored field unchanged and nothing can be cleared to
empty; every field other than the three updatable ones, the refreshed
updatedAt and the derived wordCount is never modified, and the word count
is not recomputed when no truthy content is supplied. -/
theorem updateArticle_truthy_frame (orig : Article) (req : UpdateRequest)
    (now : Nat) :
    ((req.title = none ∨ req.title = some []) →
      (updateArticle orig req now).title = orig.title) ∧
    ((req.content = none ∨ req.content = some []) →
      (updateArticle orig req now).content = orig.content) ∧
    ((req.status = none ∨ req.status = some []) →
      (updateArticle orig req now).status = orig.status) ∧
    ((req.content = none ∨ req.content = some []) →
      (updateArticle orig req now).wordCount = orig.wordCount) ∧
    (∀ s : Str, req.title = some s → s ≠ [] →
      (updateArticle orig req now).title = s) ∧
    (∀ s : Str, req.content = some s → s ≠ [] →
      (updateArticle orig req now).content = s) ∧
    (∀ s : Str, req.status = some s → s ≠ [] →
      (updateArticle orig req now).status = s) ∧
    (updateArticle orig req now).id = orig.id ∧
    (updateArticle orig req now).userId = orig.userId ∧
    (updateArticle orig req now).createdAt = orig.createdAt ∧
    (updateArticle orig req now).topic = orig.topic ∧
    (updateArticle orig req now).niche = orig.niche ∧
    (updateArticle orig req now).writingStyle = orig.writingStyle ∧
    (updateArticle orig req now).tone = orig.tone ∧
    (updateArticle orig req now).images = orig.images ∧
    (updateArticle orig req now).blogPost = orig.blogPost ∧
    (updateArticle orig req now).analytics = orig.analytics ∧
    (updateArticle orig req now).generatedAt = orig.generatedAt ∧
    (updateArticle orig req now).regeneratedAt = orig.regeneratedAt ∧
    (updateArticle orig req now).updatedAt = now := by
  refine ⟨?_, ?_, ?_, ?_, ?_, ?_, ?_, ?_, ?_, ?_, ?_, ?_, ?_, ?_, ?_, ?_, ?_, ?_, ?_, ?_⟩
  · rintro (h | h) <;> simp [updateArticle, preSaveArticle_eq, jsPresent, h]
  · rintro (h | h) <;> simp [updateArticle, preSaveArticle_eq, jsPresent, h]
  · rintro (h | h) <;> simp [updateArticle, preSaveArticle_eq, jsPresent, h]
  · rintro (h | h) <;> simp [updateArticle, preSaveArticle_eq, jsPresent, h]
  · intro s hs hne
    cases s with
    | nil => exact absurd rfl hne
    | cons c cs => simp [updateArticle, preSaveArticle_eq, jsPresent, hs]
  · intro s hs hne
    cases s with
    | nil => exact absurd rfl hne
    | cons c cs => simp [updateArticle, preSaveArticle_eq, jsPresent, hs]
  · intro s hs hne
    cases s with
    | nil => exact absurd rfl hne
    | cons c cs => simp [updateArticle, preSaveArticle_eq, jsPresent, hs]
  all_goals simp [updateArticle, preSaveArticle_eq]

/-- Concrete Article used to instantiate frame theorems. -/
def sampleArticle : Article :=
  { id := 1, userId := 2, title := ['t'], content := ['c'], topic := ['x'],
    niche := "technology".data, writingStyle := {}, wordCount := 1,
    tone := ['p'], status := ['d'], images := [], blogPost := none,
    analytics := {}, generatedAt := 0, regeneratedAt := none,
    createdAt := 0, updatedAt := 0 }

/-- Witness for claim C10 at a concrete article and request: an
empty-string title is ignored while a non-empty status is applied. -/
theorem updateArticle_truthy_frame_witness :
    (updateArticle sampleArticle
        { title := some [], content := none, status := some ['r'] } 5).title =
      sampleArticle.title ∧
    (updateArticle sampleArticle
        { title := some [], content := none, status := some ['r'] } 5).status =
      ['r'] := by
  have h := updateArticle_truthy_frame sampleArticle
    { title := some [], content := none, status := some ['r'] } 5
  exact ⟨h.1 (Or.inr rfl), h.2.2.2.2.2.2.1 ['r'] rfl (by decide)⟩

/-- Claim C4: the canonical word count splits on whitespace runs and
counts tokens, giving 3 on a double-spaced three-word string and 1 on the
empty string; the same algorithm recomputes the word count in the Article
pre-save hook whenever content is modified, in the generation helper, and
in particular on a manual content edit through the update route. -/
theorem wordCount_canonical :
    countWordsJS "one two  three".data = 3 ∧
    countWordsJS "".data = 1 ∧
    (∀ a : Article, (preSaveArticle a true).wordCount = countWordsJS a.content) ∧
    (∀ raw : Str, (generateArticleResult raw).wordCount =
      countWordsJS (parseGeneratedContent raw).content) ∧
    (∀ (orig : Article) (req : UpdateRequest) (now : Nat) (c : Str),
      req.content = some c → c ≠ [] → c ≠ orig.content →
      (updateArticle orig req now).wordCount = countWordsJS c) := by
  refine ⟨by decide, by decide, fun a => rfl, fun raw => rfl, ?_⟩
  intro orig req now c hc hne hdiff
  cases c with
  | nil => exact absurd rfl hne
  | cons x xs =>
    simp [updateArticle, preSaveArticle_eq, jsPresent, hc, hdiff]

/-- Witness for claim C4 at a concrete article and edit: updating the
content to a two-word string recomputes the stored word count to 2. -/
theorem wordCount_canonical_witness :
    (updateArticle sampleArticle
        { title := none, content := some ['a', ' ', 'b'], status := none }
        3).wordCount = 2 := by
  have h := wordCount_canonical
  exact (h.2.2.2.2 sampleArticle
    { title := none, content := some ['a', ' ', 'b'], status := none }
    3 ['a', ' ', 'b'] rfl (by decide) (by decide)).trans (by decide)

/-- Every element of a deduplicated list comes from the input and its key
was not among the already-seen keys. -/
theorem mem_dedupeBy {α : Type} (key : α → Str) :
    ∀ (l : List α) (seen : List Str) (x : α),
      x ∈ dedupeBy key seen l → x ∈ l ∧ key x ∉ seen := by
  intro l
  induction l with
  | nil => intro seen x hx; simp [dedupeBy] at hx
  | cons t ts ih =>
    intro seen x hx
    by_cases h : key t ∈ seen
    · rw [dedupeBy, if_pos h] at hx
      obtain ⟨hmem, hnot⟩ := ih _ x hx
      exact ⟨List.mem_cons_of_mem _ hmem,
        fun hs => hnot (List.mem_cons_of_mem _ hs)⟩
    · rw [dedupeBy, if_neg h] at hx
      rcases List.mem_cons.mp hx with rfl | hx'
      · exact ⟨List.mem_cons_self _ _, h⟩
      · obtain ⟨hmem, hnot⟩ := ih _ x hx'
        exact ⟨List.mem_cons_of_mem _ hmem,
          fun hs => hnot (List.mem_cons_of_mem _ hs)⟩

/-- The keys of a deduplicated list contain no duplicates. -/
theorem nodup_keys_dedupeBy {α : Type} (key : α → Str) :
    ∀ (l : List α) (seen : List Str), ((dedupeBy key seen l).map key).Nodup := by
  intro l
  induction l with
  | nil => intro seen; simp [dedupeBy]
  | cons t ts ih =>
    intro seen
    by_cases h : key t ∈ seen
    · rw [dedupeBy, if_pos h]; exact ih _
    · rw [dedupeBy, if_neg h]
      rw [List.map_cons, List.nodup_cons]
      refine ⟨?_, ih _⟩
      intro hmem
      obtain ⟨x, hx, hkx⟩ := List.mem_map.mp hmem
      obtain ⟨-, hnot⟩ := mem_dedupeBy key ts _ x hx
      exact hnot (hkx ▸ List.mem_cons_self _ _)

/-- Each kept element is the first element of the input with its key. -/
theorem find?_eq_of_mem_dedupeBy {α : Type} (key : α → Str) :
    ∀ (l : List α) (seen : List Str) (x : α),
      x ∈ dedupeBy key seen l →
      l.find? (fun y => decide (key y = key x)) = some x := by
  intro l
  induction l with
  | nil => intro seen x hx; simp [dedupeBy] at hx
  | cons t ts ih =>
    intro seen x hx
    by_cases h : key t ∈ seen
    · rw [dedupeBy, if_pos h] at hx
      have hne : key x ≠ key t := by
        intro hk
        obtain ⟨-, hnot⟩ := mem_dedupeBy key ts _ x hx
        exact hnot (hk ▸ List.mem_cons_self _ _)
      rw [List.find?_cons]
      rw [decide_eq_false (fun hk => hne hk.symm)]
      exact ih _ x hx
    · rw [dedupeBy, if_neg h] at hx
      rcases List.mem_cons.mp hx with rfl | hx'
      · rw [List.find?_cons, decide_eq_true rfl]
      · have hne : key x ≠ key t := by
          intro hk
          obtain ⟨-, hnot⟩ := mem_dedupeBy key ts _ x hx'
          exact hnot (hk ▸ List.mem_cons_self _ _)
        rw [List.find?_cons]
        rw [decide_eq_false (fun hk => hne hk.symm)]
        exact ih _ x hx'

/-- Every input key not already seen is represented in the output. -/
theorem exists_key_dedupeBy {α : Type} (key : α → Str) :
    ∀ (l : List α) (seen : List Str) (y : α),
      y ∈ l → key y ∉ seen →
      ∃ x ∈ dedupeBy key seen l, key x = key y := by
  intro l
  induction l with
  | nil => intro seen y hy _; simp at hy
  | cons t ts ih =>
    intro seen y hy hns
    by_cases h : key t ∈ seen
    · rw [dedupeBy, if_pos h]
      rcases List.mem_cons.mp hy with rfl | hy'
      · exact absurd h hns
      · refine ih _ y hy' ?_
        intro hs
        rcases List.mem_cons.mp hs with he | hs'
        · exact absurd (he ▸ h) hns
        · exact hns hs'
    · rw [dedupeBy, if_neg h]
      by_cases hk : key y = key t
      · exact ⟨t, List.mem_cons_self _ _, hk.symm⟩
      · rcases List.mem_cons.mp hy with rfl | hy'
        · exact absurd rfl hk
        · obtain ⟨x, hx, hkx⟩ := ih (key t :: seen) y hy' (by
            intro hs
            rcases List.mem_cons.mp hs with he | hs'
            · exact hk he
            · exact hns hs')
          exact ⟨x, List.mem_cons_of_mem _ hx, hkx⟩

/-- Claim C6: deduplication of merged provider results leaves no two items
sharing a dedupe key (exact title for topics, url for images), the item
kept for each key is the first occurrence of the concatenated input in
provider-priority order (and every input key stays represented), and the
merged trending result is truncated to at most 20 items while the search
result is truncated to at most the caller-supplied limit. -/
theorem dedupe_first_wins :
    (∀ l : List Topic, ((removeDuplicates l).map (fun t => t.title)).Nodup) ∧
    (∀ (l : List Topic) (x : Topic), x ∈ removeDuplicates l →
      l.find? (fun y => decide (y.title = x.title)) = some x) ∧
    (∀ (l : List Topic) (y : Topic), y ∈ l →
      ∃ x ∈ removeDuplicates l, x.title = y.title) ∧
    (∀ l : List ImageRec, ((removeDuplicateImages l).map (fun i => i.url)).Nodup) ∧
    (∀ (l : List ImageRec) (x : ImageRec), x ∈ removeDuplicateImages l →
      l.find? (fun y => decide (y.url = x.url)) = some x) ∧
    (∀ (l : List ImageRec) (y : ImageRec), y ∈ l →
      ∃ x ∈ removeDuplicateImages l, x.url = y.url) ∧
    (∀ (gC nC : Bool) (a b c d : List Topic) (niche : Str),
      getTrendingTopics gC nC (.ok a) (.ok b) (.ok c) (.ok d) niche =
        (removeDuplicates
          ((if gC then a else []) ++ (if nC then b else []) ++ c ++ d)).take 20) ∧
    (∀ (gC nC : Bool) (a b c d : List Topic) (niche : Str),
      (getTrendingTopics gC nC (.ok a) (.ok b) (.ok c) (.ok d) niche).length ≤ 20) ∧
    (∀ (nC : Bool) (a b : List Topic) (limit : Nat),
      searchTopics nC (.ok a) (.ok b) limit =
        (removeDuplicates ((if nC then a else []) ++ b)).take limit) ∧
    (∀ (nC : Bool) (a b : List Topic) (limit : Nat),
      (searchTopics nC (.ok a) (.ok b) limit).length ≤ limit) := by
  refine ⟨fun l => nodup_keys_dedupeBy _ l [],
    fun l x hx => find?_eq_of_mem_dedupeBy _ l [] x hx,
    fun l y hy => exists_key_dedupeBy _ l [] y hy (by simp),
    fun l => nodup_keys_dedupeBy _ l [],
    fun l x hx => find?_eq_of_mem_dedupeBy _ l [] x hx,
    fun l y hy => exists_key_dedupeBy _ l [] y hy (by simp),
    ?_, ?_, ?_, ?_⟩
  · intro gC nC a b c d niche
    cases gC <;> cases nC <;> rfl
  · intro gC nC a b c d niche
    cases gC <;> cases nC <;> exact List.length_take_le 20 _
  · intro nC a b limit
    cases nC <;> rfl
  · intro nC a b limit
    cases nC <;> exact List.length_take_le limit _

/-- Witness for claim C6 at a concrete merged list with a duplicated
title: the first occurrence is the one kept. -/
theorem dedupe_first_wins_witness :
    [mkTopic ['a'] ['1'] ['p'] 1, mkTopic ['a'] ['2'] ['q'] 1,
        mkTopic ['b'] ['3'] ['q'] 1].find?
      (fun y => decide (y.title = (mkTopic ['a'] ['1'] ['p'] 1).title)) =
      some (mkTopic ['a'] ['1'] ['p'] 1) :=
  dedupe_first_wins.2.1
    [mkTopic ['a'] ['1'] ['p'] 1, mkTopic ['a'] ['2'] ['q'] 1,
      mkTopic ['b'] ['3'] ['q'] 1]
    (mkTopic ['a'] ['1'] ['p'] 1) (by decide)

/-- Lines without a marker are skipped unchanged by the parser loop while
no CONTENT: marker has been seen. -/
theorem parseLoop_skip (pre : List Str) (rest : List Str) (t a : Str)
    (h : ∀ l ∈ pre, startsWith l titleMarker = false ∧
      startsWith l contentMarker = false) :
    parseLoop (pre ++ rest) t a false = parseLoop rest t a false := by
  induction pre with
  | nil => rfl
  | cons l ls ih =>
    have hl := h l (List.mem_cons_self _ _)
    rw [List.cons_append, parseLoop]
    simp only [hl.1, hl.2, Bool.false_eq_true, if_false]
    exact ih (fun x hx => h x (List.mem_cons_of_mem _ hx))

/-- The content buffer joined so far, one line at a time, each followed by
a newline (the accumulation shape of the parser loop in content mode). -/
def joinLinesNl (ls : List Str) : Str :=
  ls.foldr (fun l acc => l ++ '\n' :: acc) []

/-- After the CONTENT: marker, marker-free lines are all appended to the
content buffer, newline-terminated, and the title is unchanged. -/
theorem parseLoop_collect (ls : List Str) (t : Str)
    (h : ∀ l ∈ ls, startsWith l titleMarker = false ∧
      startsWith l contentMarker = false) :
    ∀ a : Str, parseLoop ls t a true = (t, a ++ joinLinesNl ls) := by
  induction ls with
  | nil => intro a; simp [parseLoop, joinLinesNl]
  | cons l ls ih =>
    intro a
    have hl := h l (List.mem_cons_self _ _)
    rw [parseLoop]
    simp only [hl.1, hl.2, Bool.false_eq_true, if_false, if_true]
    rw [ih (fun x hx => h x (List.mem_cons_of_mem _ hx))]
    simp [joinLinesNl, List.append_assoc]

/-- A line beginning with the CONTENT: marker does not begin with the
TITLE: marker. -/
theorem startsWith_content_not_title (l : Str)
    (h : startsWith l contentMarker = true) :
    startsWith l titleMarker = false := by
  cases l with
  | nil => simp [startsWith, contentMarker] at h
  | cons c cs =>
    simp only [contentMarker, startsWith, Bool.and_eq_true, decide_eq_true_eq] at h
    simp only [titleMarker, startsWith, ← h.1, Bool.and_eq_false_iff]
    left
    decide

/-- Counterexample for claim C1: on the marker-free single-line input
used by the specification, the parser returns the raw text itself as the
title, not the literal string Generated Article (the default applies only
when the first blank-line segment is empty); and on a raw text with a
trailing space the returned content is the trimmed text, not the entire
raw text. -/
theorem parse_no_markers_title_not_default :
    (parseGeneratedContent "Just one line".data).title = "Just one line".data ∧
    (parseGeneratedContent "Just one line".data).title ≠
      "Generated Article".data ∧
    (parseGeneratedContent "Just one line ".data).content ≠
      "Just one line ".data := by
  exact ⟨rfl, by decide, by decide⟩

/-- Claim C1 as amended: for every non-empty raw text whose lines contain
no TITLE:/CONTENT: marker and which has no blank-line boundary, the
parser returns the entire raw text as the title (Generated Article is
used only for the empty text) and the raw text trimmed of leading and
trailing whitespace as the content, falling back to the raw text itself
when the trim is empty. -/
theorem parse_no_markers_fallback (raw : Str) (hraw : raw ≠ [])
    (hm : ∀ l ∈ splitNl raw, startsWith l titleMarker = false ∧
      startsWith l contentMarker = false)
    (hnb : splitNN raw = [raw]) :
    parseGeneratedContent raw =
      { title := raw
        content := if jsTrim raw ≠ [] then jsTrim raw else raw } := by
  have hloop : parseLoop (splitNl raw) [] [] false = ([], []) := by
    have h := parseLoop_skip (splitNl raw) [] [] [] (by simpa using hm)
    simpa using h
  have hint : List.intercalate ('\n' :: '\n' :: []) ([] : List Str) = [] := rfl
  simp only [parseGeneratedContent, hloop, hnb]
  simp [hraw, hint]

/-- Witness for claim C1 as amended, at the single-line input of the
specification. -/
theorem parse_no_markers_fallback_witness :
    parseGeneratedContent "Just one line".data =
      { title := "Just one line".data, content := "Just one line".data } := by
  have h := parse_no_markers_fallback "Just one line".data (by decide)
    (by decide) (by decide)
  exact h.trans (by decide)

/-- Trimming of leading and trailing blank lines only, following the
specification's wording for comparison with the parser's actual trim:
split into lines, drop empty lines at both ends, rejoin with newlines. -/
def specTrimBlankLinesOnly (s : Str) : Str :=
  List.intercalate ['\n']
    ((((splitNl s).dropWhile (· = [])).reverse.dropWhile (· = [])).reverse)

/-- Counterexample for claim C7: when the first content line carries
leading whitespace, the parser trims it away along with the blank lines,
so the returned content differs from the content buffer trimmed of
leading and trailing blank lines only. -/
theorem parse_markers_trims_whitespace :
    (parseGeneratedContent ("TITLE: Foo\nCONTENT:\n Bar").data).content =
      "Bar".data ∧
    specTrimBlankLinesOnly (joinLinesNl [" Bar".data]) = " Bar".data ∧
    (parseGeneratedContent ("TITLE: Foo\nCONTENT:\n Bar").data).content ≠
      specTrimBlankLinesOnly (joinLinesNl [" Bar".data]) := by
  exact ⟨rfl, rfl, by decide⟩

/-- Claim C7 as amended: for a raw text whose line split consists of
marker-free lines around exactly one TITLE: line followed later by
exactly one CONTENT: line, and whose title text after the marker trims to
something non-empty, the parser returns that trimmed title text, and as
content the lines after the CONTENT: line joined newline-terminated with
the marker lines excluded, trimmed of leading and trailing whitespace
(not merely of blank lines), with the whole raw text substituted when
that trim is empty. -/
theorem parse_markers_roundtrip (raw : Str) (pre mid post : List Str)
    (tl cl : Str)
    (hsplit : splitNl raw = pre ++ tl :: (mid ++ cl :: post))
    (htl : startsWith tl titleMarker = true)
    (hcl : startsWith cl contentMarker = true)
    (hpre : ∀ l ∈ pre, startsWith l titleMarker = false ∧
      startsWith l contentMarker = false)
    (hmid : ∀ l ∈ mid, startsWith l titleMarker = false ∧
      startsWith l contentMarker = false)
    (hpost : ∀ l ∈ post, startsWith l titleMarker = false ∧
      startsWith l contentMarker = false)
    (htne : jsTrim (replaceFirst titleMarker tl) ≠ []) :
    parseGeneratedContent raw =
      { title := jsTrim (replaceFirst titleMarker tl)
        content := if jsTrim (joinLinesNl post) ≠ [] then
            jsTrim (joinLinesNl post)
          else raw } := by
  have hclt : startsWith cl titleMarker = false :=
    startsWith_content_not_title cl hcl
  have hloop : parseLoop (splitNl raw) [] [] false =
      (jsTrim (replaceFirst titleMarker tl), joinLinesNl post) := by
    rw [hsplit, parseLoop_skip pre _ [] [] hpre, parseLoop]
    simp only [htl, if_true]
    rw [parseLoop_skip mid _ _ [] hmid, parseLoop]
    simp only [hclt, hcl, Bool.false_eq_true, if_false, if_true]
    rw [parseLoop_collect post _ hpost []]
    simp
  simp only [parseGeneratedContent, hloop]
  simp [htne]

/-- Witness for claim C7 as amended, at the round-trip input of the
specification. -/
theorem parse_markers_roundtrip_witness :
    parseGeneratedContent ("TITLE: Foo\n\nCONTENT:\nBar\nBaz").data =
      { title := "Foo".data, content := ("Bar\nBaz").data } := by
  have h := parse_markers_roundtrip ("TITLE: Foo\n\nCONTENT:\nBar\nBaz").data
    [] [[]] ["Bar".data, "Baz".data] "TITLE: Foo".data "CONTENT:".data
    (by decide) (by decide) (by decide) (by decide) (by decide) (by decide)
    (by decide)
  exact h.trans (by decide)
